import Mathlib

/-!
Verification of the blog-generation pipeline in `blog_generator/views.py`.

Text is modelled as `List Char` (Python strings are sequences of code
points).  External collaborators (yt-dlp, the filesystem, AssemblyAI,
the Hugging Face endpoint, the local transformers pipeline, the Django
ORM) are modelled as oracle functions packaged in environment
structures; a call that may raise a Python exception is given type
`Except Text _`, with `Except.error` standing for the raised exception.
Python `try/except` blocks are embedded as explicit `match`es on those
`Except` values, following the structure of the source line by line.
-/

namespace BlogGen

abbrev Text := List Char

/-- Python truthiness of an `Optional[str]` value: `None` and the empty
string are falsy, every other string is truthy. -/
def pyFalsy : Option Text → Bool
  | none => true
  | some s => s.isEmpty

/-- Python `a or b` on `Optional[str]` values: yields `b` when `a` is
falsy (i.e. `None` or the empty string), else `a`. -/
def pyOr (a b : Option Text) : Option Text :=
  if pyFalsy a then b else a

/-- Python `range(start, stop, step)` for a positive `step`. -/
def pyRange (start stop step : Nat) : List Nat :=
  if h : 0 < step ∧ start < stop then
    start :: pyRange (start + step) stop step
  else
    []
termination_by stop - start
decreasing_by
  have h1 := h.1
  have h2 := h.2
  omega

/-- Python slice `s[i : i+n]`. -/
def pySlice (s : Text) (i n : Nat) : Text :=
  (s.drop i).take n

/-- The chunking expression of `generate_blog_from_transcription`
(views.py line 209):
`[transcription[i:i+max_chunk] for i in range(0, len(transcription), max_chunk)]`. -/
def chunksExpr (c : Nat) (s : Text) : List Text :=
  (pyRange 0 s.length c).map (fun i => pySlice s i c)

/-- Recursive characterisation of the chunking expression, used for the
inductive proofs. -/
def chunksRec (c : Nat) (s : Text) : List Text :=
  if _h : s = [] ∨ c = 0 then []
  else s.take c :: chunksRec c (s.drop c)
termination_by s.length
decreasing_by
  simp only [List.length_drop]
  rcases Nat.eq_zero_or_pos c with hc | hc
  · exact absurd (Or.inr hc) _h
  · have hs : s ≠ [] := fun hnil => _h (Or.inl hnil)
    have : 0 < s.length := List.length_pos.mpr hs
    omega

theorem pyRange_eq_nil (start stop step : Nat) (h : ¬ (0 < step ∧ start < stop)) :
    pyRange start stop step = [] := by
  rw [pyRange, dif_neg h]

theorem pyRange_empty (start stop step : Nat) (h : ¬ start < stop) :
    pyRange start stop step = [] :=
  pyRange_eq_nil start stop step (fun hh => h hh.2)

theorem pyRange_cons (start stop step : Nat) (hs : 0 < step) (h : start < stop) :
    pyRange start stop step = start :: pyRange (start + step) stop step := by
  rw [pyRange]
  simp [hs, h]

theorem pyRange_shift (k : Nat) : ∀ start stop step : Nat,
    pyRange (start + k) (stop + k) step = (pyRange start stop step).map (· + k) := by
  intro start stop step
  by_cases hs : 0 < step
  · by_cases h : start < stop
    · rw [pyRange_cons _ _ _ hs (by omega), pyRange_cons _ _ _ hs h]
      have ih : pyRange (start + step + k) (stop + k) step
          = (pyRange (start + step) stop step).map (· + k) := by
        have : start + k + step = start + step + k := by omega
        have h2 := pyRange_shift k (start + step) stop step
        exact h2
      simp only [List.map_cons]
      rw [show start + k + step = start + step + k by omega, ih]
    · rw [pyRange_empty _ _ _ (by omega), pyRange_empty _ _ _ h]
      simp
  · rw [pyRange_eq_nil _ _ _ (fun hh => hs hh.1),
      pyRange_eq_nil _ _ _ (fun hh => hs hh.1)]
    simp
termination_by start stop step => stop - start
decreasing_by omega

theorem chunksExpr_nil (c : Nat) : chunksExpr c [] = [] := by
  unfold chunksExpr
  rw [pyRange_empty]
  · rfl
  · simp

/-- The comprehension-style chunking agrees with its recursive form. -/
theorem chunksExpr_eq_chunksRec (c : Nat) (hc : 0 < c) :
    ∀ s : Text, chunksExpr c s = chunksRec c s := by
  intro s
  by_cases hs : s = []
  · subst hs
    rw [chunksExpr_nil, chunksRec]
    simp
  · have hlen : 0 < s.length := List.length_pos.mpr hs
    rw [chunksRec]
    simp only [hs, hc.ne', or_self, dite_false]
    unfold chunksExpr
    rw [pyRange_cons 0 s.length c hc hlen]
    simp only [List.map_cons, Nat.zero_add]
    congr 1
    have hdroplen : (s.drop c).length = s.length - c := by simp
    have ih := chunksExpr_eq_chunksRec c hc (s.drop c)
    rw [← ih]
    unfold chunksExpr
    rw [hdroplen]
    by_cases hle : s.length ≤ c
    · rw [pyRange_empty c s.length c (by omega),
        pyRange_empty 0 (s.length - c) c (by omega)]
      simp
    · have : s.length = (s.length - c) + c := by omega
      rw [show pyRange c s.length c = pyRange (0 + c) ((s.length - c) + c) c by
            rw [Nat.zero_add, ← this],
        pyRange_shift c 0 (s.length - c) c, List.map_map]
      apply List.map_congr_left
      intro i _
      simp only [Function.comp_apply, pySlice]
      rw [Nat.add_comm i c, ← List.drop_drop]
termination_by s => s.length
decreasing_by
  simp only [List.length_drop]
  have hlen : 0 < s.length := List.length_pos.mpr hs
  omega

theorem chunksRec_flatten (c : Nat) (hc : 0 < c) :
    ∀ s : Text, (chunksRec c s).flatten = s := by
  intro s
  rw [chunksRec]
  by_cases hs : s = []
  · simp [hs]
  · simp only [hs, hc.ne', or_self, dite_false, List.flatten_cons]
    rw [chunksRec_flatten c hc (s.drop c)]
    exact List.take_append_drop c s
termination_by s => s.length
decreasing_by
  simp only [List.length_drop]
  have hlen : 0 < s.length := List.length_pos.mpr hs
  omega

theorem chunksRec_length (c : Nat) (hc : 0 < c) :
    ∀ s : Text, (chunksRec c s).length = (s.length + c - 1) / c := by
  intro s
  rw [chunksRec]
  by_cases hs : s = []
  · subst hs
    simp only [List.length_nil, dite_true, or_true, Nat.zero_add]
    symm
    exact Nat.div_eq_of_lt (by omega)
  · have hlen : 0 < s.length := List.length_pos.mpr hs
    simp only [hs, hc.ne', or_self, dite_false, List.length_cons]
    rw [chunksRec_length c hc (s.drop c)]
    simp only [List.length_drop]
    by_cases hle : s.length ≤ c
    · have h1 : s.length - c = 0 := by omega
      rw [h1]
      have h2 : (0 + c - 1) / c = 0 := Nat.div_eq_of_lt (by omega)
      rw [h2]
      have h3 : (s.length + c - 1) / c = 1 := by
        rw [show s.length + c - 1 = (s.length - 1) + 1 * c by omega,
          Nat.add_mul_div_right _ _ hc, Nat.div_eq_of_lt (by omega)]
      omega
    · have h1 : s.length - c + c - 1 = s.length - 1 := by omega
      have h2 : s.length + c - 1 = (s.length - 1) + c := by omega
      rw [h1, h2, Nat.add_div_right _ hc]
termination_by s => s.length
decreasing_by
  simp only [List.length_drop]
  have hlen : 0 < s.length := List.length_pos.mpr hs
  omega

theorem chunksRec_dropLast_length (c : Nat) (hc : 0 < c) :
    ∀ s : Text, ∀ l ∈ (chunksRec c s).dropLast, l.length = c := by
  intro s
  rw [chunksRec]
  by_cases hs : s = []
  · simp [hs]
  · have hlen : 0 < s.length := List.length_pos.mpr hs
    simp only [hs, hc.ne', or_self, dite_false]
    intro l hl
    by_cases hle : s.length ≤ c
    · have hdrop : s.drop c = [] := List.drop_of_length_le hle
      rw [hdrop, chunksRec] at hl
      simp at hl
    · have hrec_ne : chunksRec c (s.drop c) ≠ [] := by
        rw [chunksRec]
        have hd : s.drop c ≠ [] := by
          intro hnil
          have := List.drop_of_length_le (l := s) (i := c)
          have hlen2 : (s.drop c).length = s.length - c := by simp
          rw [hnil] at hlen2
          simp at hlen2
          omega
        simp [hd, hc.ne']
      rw [List.dropLast_cons_of_ne_nil hrec_ne] at hl
      rcases List.mem_cons.mp hl with h | h
      · subst h
        rw [List.length_take]
        omega
      · exact chunksRec_dropLast_length c hc (s.drop c) l h
termination_by s => s.length
decreasing_by
  simp only [List.length_drop]
  have hlen : 0 < s.length := List.length_pos.mpr hs
  omega

theorem chunksRec_getLast_length (c : Nat) (hc : 0 < c) :
    ∀ s : Text, 0 < s.length →
      (chunksRec c s).getLast?.map List.length
        = some (if s.length % c = 0 then c else s.length % c) := by
  intro s hlen
  rw [chunksRec]
  have hs : s ≠ [] := by
    intro h
    rw [h] at hlen
    simp at hlen
  simp only [hs, hc.ne', or_self, dite_false]
  by_cases hle : s.length ≤ c
  · have hdrop : s.drop c = [] := List.drop_of_length_le hle
    have hnil : chunksRec c ([] : Text) = [] := by
      rw [chunksRec]
      simp
    rw [hdrop, hnil]
    have htake : (List.take c s).length = s.length := by
      rw [List.length_take]
      omega
    have hsing : ([List.take c s] : List Text).getLast? = some (List.take c s) := rfl
    rw [hsing]
    simp only [Option.map_some']
    rw [htake]
    by_cases heq : s.length = c
    · rw [if_pos (by rw [heq]; exact Nat.mod_self c), heq]
    · rw [if_neg (show ¬ s.length % c = 0 by
          rw [Nat.mod_eq_of_lt (by omega)]
          omega),
        Nat.mod_eq_of_lt (by omega)]
  · have hd : s.drop c ≠ [] := by
      intro hnil
      have hlen2 : (s.drop c).length = s.length - c := by simp
      rw [hnil] at hlen2
      simp at hlen2
      omega
    have hrec_ne : chunksRec c (s.drop c) ≠ [] := by
      rw [chunksRec]
      simp [hd, hc.ne']
    have hdlen : 0 < (s.drop c).length := List.length_pos.mpr hd
    have hrec := chunksRec_getLast_length c hc (s.drop c) hdlen
    obtain ⟨hdtl, tl, heq⟩ := List.exists_cons_of_ne_nil hrec_ne
    rw [heq, List.getLast?_cons_cons]
    rw [heq] at hrec
    rw [hrec]
    have hmod : (s.drop c).length % c = s.length % c := by
      simp only [List.length_drop]
      conv_rhs => rw [show s.length = (s.length - c) + c by omega]
      rw [Nat.add_mod_right]
    rw [hmod]
termination_by s => s.length
decreasing_by
  simp only [List.length_drop]
  omega

/-! ## Summarizer: `generate_blog_from_transcription` (views.py 176-221)

External calls are oracles in `SummarizerEnv`.  `primary` stands for the
whole primary path (HuggingFaceEndpoint construction, prompt templating
and `chain.invoke`, lines 179-195); `pipelineInit` for
`from transformers import pipeline` and the `pipeline("summarization", ...)`
construction (lines 201-206); `summarizer` for one loop iteration
(line 212-216): `Except.error` is a raised exception, `Except.ok none`
is an output carrying neither a `summary_text` nor a `generated_text`
key (nothing appended), and `Except.ok (some s)` is an appended summary. -/

structure SummarizerEnv where
  primary : Text → Except Text Text
  pipelineInit : Except Text Unit
  summarizer : Text → Except Text (Option Text)

/-- The blank-line separator `"\n\n"` of views.py line 218. -/
def blankSep : Text := ['\n', '\n']

/-- The summary-collecting loop of views.py lines 210-216: iterate over
the chunks in order, appending each produced summary; a raised exception
aborts the whole loop. -/
def collectSummaries (env : SummarizerEnv) : List Text → Except Text (List Text)
  | [] => Except.ok []
  | ch :: rest =>
    match env.summarizer ch with
    | Except.error e => Except.error e
    | Except.ok r =>
      match collectSummaries env rest with
      | Except.error e => Except.error e
      | Except.ok tail =>
        Except.ok (match r with
          | some s => s :: tail
          | none => tail)

/-- `generate_blog_from_transcription` (views.py 176-221).  The result is
`Except.ok` of the Python return value (`some` a string, `none` for
`return None`); `Except.error` would be an uncaught exception. -/
def generate_blog_from_transcription (env : SummarizerEnv) (transcription : Text) :
    Except Text (Option Text) :=
  match env.primary transcription with
  | Except.ok generated_content => Except.ok (some generated_content)
  | Except.error _ =>
    match env.pipelineInit with
    | Except.error _ => Except.ok none
    | Except.ok _ =>
      match collectSummaries env (chunksExpr 1000 transcription) with
      | Except.error _ => Except.ok none
      | Except.ok summaries =>
        Except.ok (if summaries.isEmpty then none
          else some (List.intercalate blankSep summaries))

/-- The summaries produced over a chunk list when no iteration raises:
the `some` results of the per-chunk summarizer, in chunk order. -/
def producedSummaries (env : SummarizerEnv) (chs : List Text) : List Text :=
  chs.filterMap (fun ch =>
    match env.summarizer ch with
    | Except.ok r => r
    | Except.error _ => none)

theorem collectSummaries_ok (env : SummarizerEnv) :
    ∀ chs : List Text, (∀ ch ∈ chs, ∃ r, env.summarizer ch = Except.ok r) →
      collectSummaries env chs = Except.ok (producedSummaries env chs) := by
  intro chs h
  induction chs with
  | nil => rfl
  | cons ch rest ih =>
    obtain ⟨r, hr⟩ := h ch (List.mem_cons_self ch rest)
    have hrest := ih (fun x hx => h x (List.mem_cons_of_mem ch hx))
    simp only [collectSummaries, hr, hrest, producedSummaries, List.filterMap_cons]
    cases r <;> simp [producedSummaries]

/-! ## Title resolver: `yt_title` (views.py 82-94) -/

/-- External collaborators of `yt_title`: `importYtDlp` models
`import yt_dlp` (line 84), `extract_info` models
`ydl.extract_info(link, download=False)` followed by `info.get('title')`
(lines 90-92); the resulting title may be Python `None`. -/
structure TitleEnv where
  importYtDlp : Except Text Unit
  extract_info : Text → Except Text (Option Text)

/-- `yt_title` (views.py 82-94): both `try` blocks return `None` on any
exception. -/
def yt_title (env : TitleEnv) (link : Text) : Except Text (Option Text) :=
  match env.importYtDlp with
  | Except.error _ => Except.ok none
  | Except.ok _ =>
    match env.extract_info link with
    | Except.error _ => Except.ok none
    | Except.ok title => Except.ok title

/-! ## Acquirer: `download_audio` and `get_transcription` (views.py 96-174) -/

/-- `os.path.join` for a directory and a relative file name. -/
def os_path_join (dir fname : Text) : Text := dir ++ '/' :: fname

/-- External collaborators of the local-download acquirer.
`extract_id` models `ydl.extract_info(link, download=True)` followed by
`info.get('id')` (lines 115-116); a download failure is `Except.error`.
(A Python `None` id would make the later `fname.startswith(video_id)`
raise, which the enclosing `except` turns into `None` as well, so it is
subsumed by the `Except.error` case.)  `listdir` is the MEDIA_ROOT
directory listing, `pathExists`/`getsize`/`abspath` model the
corresponding `os.path` calls, `getenv` models `os.getenv`, and
`transcribe` models `aai.Transcriber()` plus `transcriber.transcribe`. -/
structure TranscriptObj where
  text : Except Text (Option Text)
  get : Except Text (Option Text)
  str : Text

/-- The fields of `TranscriptObj` model the transcript object returned
by the speech-to-text service: `text` is the `transcript.text`
attribute access (which may raise, and whose value may be Python
`None`), `get` is `transcript.get('text')`, and `str` is
`str(transcript)`. -/
structure AcquireEnv where
  media_root : Text
  importYtDlp : Except Text Unit
  extract_id : Text → Except Text Text
  pathExists : Text → Bool
  listdir : List Text
  abspath : Text → Text
  getsize : Text → Except Text Nat
  getenv : Text → Option Text
  transcribe : Text → Except Text TranscriptObj

/-- `download_audio` (views.py 96-126): download and transcode, then
look for `<video id>.mp3` under MEDIA_ROOT, falling back to the first
directory entry that starts with the id and ends with `.mp3`; `None`
when no file is found or on any exception. -/
def download_audio (env : AcquireEnv) (link : Text) : Except Text (Option Text) :=
  match env.importYtDlp with
  | Except.error _ => Except.ok none
  | Except.ok _ =>
    match env.extract_id link with
    | Except.error _ => Except.ok none
    | Except.ok video_id =>
      let mp3_path := os_path_join env.media_root (video_id ++ ".mp3".data)
      if env.pathExists mp3_path then Except.ok (some mp3_path)
      else
        match env.listdir.find?
            (fun fname => video_id.isPrefixOf fname && ".mp3".data.isSuffixOf fname) with
        | some fname => Except.ok (some (os_path_join env.media_root fname))
        | none => Except.ok none

/-- `get_transcription` (views.py 128-174).  The file size is computed
only for logging (lines 139-143) and never checked; the API key is the
first truthy of `ASSEMBLY_KEY` and `ASSEMBLYAI_API_KEY`; the transcript
text is extracted robustly (attribute, then `.get('text')`, then
`str(...)`). -/
def get_transcription (env : AcquireEnv) (link : Text) : Except Text (Option Text) :=
  match download_audio env link with
  | Except.error e => Except.error e
  | Except.ok audioOpt =>
    if pyFalsy audioOpt then Except.ok none
    else
      let audio_file := env.abspath (audioOpt.getD [])
      if ¬ env.pathExists audio_file then Except.ok none
      else
        let _size : Option Nat := (env.getsize audio_file).toOption
        let assembly_key :=
          pyOr (env.getenv "ASSEMBLY_KEY".data) (env.getenv "ASSEMBLYAI_API_KEY".data)
        if pyFalsy assembly_key then Except.ok none
        else
          match env.transcribe audio_file with
          | Except.error _ => Except.ok none
          | Except.ok transcript =>
            let text :=
              match transcript.text with
              | Except.ok t => t
              | Except.error _ =>
                match transcript.get with
                | Except.ok t => t
                | Except.error _ => some transcript.str
            Except.ok text

/-! ## Orchestrator: `generate_blog` (views.py 29-80)

The three pipeline stages are total (they return `Except.ok` for every
oracle environment — proved below), so the orchestrator's view of them
is `Option Text`-valued.  Persistence (`BlogPost.objects.create` /
`.save()`, lines 64-70) may raise; its exception is the only one that
can reach the catch-all handler of lines 74-78. -/

/-- One observable call made by the orchestrator to a collaborator. -/
inductive Event where
  | titleCall (link : Text)
  | transcriptionCall (link : Text)
  | summarizeCall (transcription : Text)
  | persistCall (user : Nat) (title link content : Text)
deriving DecidableEq

/-- Recognizer for persistence events. -/
def Event.isPersist : Event → Bool
  | Event.persistCall _ _ _ _ => true
  | _ => false

/-- The JSON responses `generate_blog` can produce, one constructor per
`JsonResponse` site in views.py. -/
inductive HttpResponse where
  | methodNotAllowed
  | authRequired
  | invalidData
  | titleLookupFailed
  | transcriptFailed
  | blogFailed
  | internalErrorDebug (detail : Text)
  | internalError
  | success (content : Text)
deriving DecidableEq

/-- The HTTP status code attached to each response (views.py lines 37,
45, 51, 56, 61, 73, 77, 78, 80). -/
def HttpResponse.status : HttpResponse → Nat
  | HttpResponse.methodNotAllowed => 405
  | HttpResponse.authRequired => 401
  | HttpResponse.invalidData => 400
  | HttpResponse.titleLookupFailed => 400
  | HttpResponse.transcriptFailed => 500
  | HttpResponse.blogFailed => 500
  | HttpResponse.internalErrorDebug _ => 500
  | HttpResponse.internalError => 500
  | HttpResponse.success _ => 200

/-- An incoming HTTP request: `parseLink` is the combined result of
`json.loads(request.body)` and `data['link']` (lines 42-43), with
`Except.error` standing for a raised `KeyError` or `JSONDecodeError`
(malformed JSON or missing `link` field). -/
structure Request where
  method : Text
  is_authenticated : Bool
  userId : Nat
  parseLink : Except Unit Text

/-- The orchestrator's collaborators: the three pipeline stages (total,
`Option`-valued per the totality theorems below) and the persistence
layer, which may raise. -/
structure World where
  yt_title : Text → Option Text
  get_transcription : Text → Option Text
  generate_blog_from_transcription : Text → Option Text
  persist : Nat → Text → Text → Text → Except Text Unit

/-- `generate_blog` (views.py 29-80), instrumented with the list of
collaborator calls it makes, in order.  Each stage result is tested
with Python truthiness (`if not title` / `if not transcription` /
`if not blog_content`). -/
def generate_blog (debug : Bool) (w : World) (r : Request) :
    HttpResponse × List Event :=
  if r.method = "POST".data then
    if ¬ r.is_authenticated then (HttpResponse.authRequired, [])
    else
      match r.parseLink with
      | Except.error _ => (HttpResponse.invalidData, [])
      | Except.ok yt_link =>
        let title := w.yt_title yt_link
        if pyFalsy title then
          (HttpResponse.titleLookupFailed, [Event.titleCall yt_link])
        else
          let transcription := w.get_transcription yt_link
          if pyFalsy transcription then
            (HttpResponse.transcriptFailed,
              [Event.titleCall yt_link, Event.transcriptionCall yt_link])
          else
            let t := transcription.getD []
            let blog_content := w.generate_blog_from_transcription t
            if pyFalsy blog_content then
              (HttpResponse.blogFailed,
                [Event.titleCall yt_link, Event.transcriptionCall yt_link,
                 Event.summarizeCall t])
            else
              let content := blog_content.getD []
              let events :=
                [Event.titleCall yt_link, Event.transcriptionCall yt_link,
                 Event.summarizeCall t,
                 Event.persistCall r.userId (title.getD []) yt_link content]
              match w.persist r.userId (title.getD []) yt_link content with
              | Except.error e =>
                ((if debug then HttpResponse.internalErrorDebug e
                  else HttpResponse.internalError), events)
              | Except.ok _ => (HttpResponse.success content, events)
  else (HttpResponse.methodNotAllowed, [])

/-! ## Claim theorems -/

/-- C2: for every transcript of length L > 0 and chunk size C = 1000,
the chunking expression of views.py line 209 produces exactly ceil(L/C)
chunks, each of length C except the last, whose length is L mod C (or C
when C divides L), and concatenating the chunks in order reconstructs
the original transcript exactly. -/
theorem chunking_law (s : Text) (h : 0 < s.length) :
    (chunksExpr 1000 s).length = (s.length + 999) / 1000
    ∧ (∀ l ∈ (chunksExpr 1000 s).dropLast, l.length = 1000)
    ∧ (chunksExpr 1000 s).getLast?.map List.length
        = some (if s.length % 1000 = 0 then 1000 else s.length % 1000)
    ∧ (chunksExpr 1000 s).flatten = s := by
  have hc : 0 < 1000 := by omega
  rw [chunksExpr_eq_chunksRec 1000 hc s]
  refine ⟨?_, ?_, ?_, ?_⟩
  · rw [chunksRec_length 1000 hc s]
    congr 1
  · exact chunksRec_dropLast_length 1000 hc s
  · exact chunksRec_getLast_length 1000 hc s h
  · exact chunksRec_flatten 1000 hc s

/-- Witness for C2 at the spec's end-to-end transcript `"hello world"`
(11 characters, one chunk). -/
theorem chunking_law_witness :
    (chunksExpr 1000 "hello world".data).length = ("hello world".data.length + 999) / 1000
    ∧ (∀ l ∈ (chunksExpr 1000 "hello world".data).dropLast, l.length = 1000)
    ∧ (chunksExpr 1000 "hello world".data).getLast?.map List.length
        = some (if "hello world".data.length % 1000 = 0 then 1000
            else "hello world".data.length % 1000)
    ∧ (chunksExpr 1000 "hello world".data).flatten = "hello world".data :=
  chunking_law "hello world".data (by decide)

/-- A sample summarizer environment whose primary path raises and whose
local model prefixes every chunk with `S`. -/
def sampleSummarizerEnv : SummarizerEnv where
  primary := fun _ => Except.error "quota exceeded".data
  pipelineInit := Except.ok ()
  summarizer := fun ch => Except.ok (some ('S' :: ch))

/-- C1: if the primary summarization path raises, `summarize` falls back
to the local path: it splits the transcript into contiguous
1000-character chunks (the chunking expression; no overlap, last chunk
possibly shorter — see `chunking_law`), summarizes each chunk
independently, collects the chunk summaries the model produces in chunk
order, and returns them joined with the blank-line separator; if no
chunk yields a summary it returns the failure value `None`. -/
theorem summarize_fallback (env : SummarizerEnv) (t e : Text)
    (hp : env.primary t = Except.error e)
    (hi : env.pipelineInit = Except.ok ())
    (hc : ∀ ch ∈ chunksExpr 1000 t, ∃ r, env.summarizer ch = Except.ok r) :
    generate_blog_from_transcription env t =
      Except.ok (if (producedSummaries env (chunksExpr 1000 t)).isEmpty then none
        else some (List.intercalate blankSep (producedSummaries env (chunksExpr 1000 t)))) := by
  unfold generate_blog_from_transcription
  rw [hp, hi, collectSummaries_ok env _ hc]

/-- Witness for C1: a concrete environment whose primary path raises. -/
theorem summarize_fallback_witness :
    generate_blog_from_transcription sampleSummarizerEnv "hi".data =
      Except.ok
        (if (producedSummaries sampleSummarizerEnv (chunksExpr 1000 "hi".data)).isEmpty
          then none
          else some (List.intercalate blankSep
            (producedSummaries sampleSummarizerEnv (chunksExpr 1000 "hi".data)))) :=
  summarize_fallback sampleSummarizerEnv "hi".data "quota exceeded".data rfl rfl
    (fun ch _ => ⟨some ('S' :: ch), rfl⟩)

/-- C6: every unauthenticated POST invocation yields the 401
authentication error, for every request body (well-formed or not), with
no collaborator call made. -/
theorem unauthenticated_rejected (debug : Bool) (w : World) (userId : Nat)
    (parse : Except Unit Text) :
    generate_blog debug w ⟨"POST".data, false, userId, parse⟩
      = (HttpResponse.authRequired, [])
    ∧ HttpResponse.status HttpResponse.authRequired = 401 := by
  constructor
  · simp [generate_blog]
  · rfl

/-- C7: every authenticated POST invocation whose body fails to parse
(malformed JSON or missing `link` key) yields the 400 invalid-data
error, with no collaborator call made. -/
theorem invalid_input_rejected (debug : Bool) (w : World) (userId : Nat) (e : Unit) :
    generate_blog debug w ⟨"POST".data, true, userId, Except.error e⟩
      = (HttpResponse.invalidData, [])
    ∧ HttpResponse.status HttpResponse.invalidData = 400 := by
  constructor
  · simp [generate_blog]
  · rfl

/-- C3: on an authenticated POST with a parsed link, a falsy title stops
the pipeline with the 400 title-lookup failure and neither the acquirer
nor the summarizer nor persistence is called; likewise a falsy
transcript stops before the summarizer, and a falsy summary stops
before persistence. -/
theorem pipeline_short_circuit (debug : Bool) (w : World) (r : Request) (link : Text)
    (hm : r.method = "POST".data)
    (ha : r.is_authenticated = true)
    (hl : r.parseLink = Except.ok link) :
    (pyFalsy (w.yt_title link) = true →
      generate_blog debug w r = (HttpResponse.titleLookupFailed, [Event.titleCall link])
      ∧ HttpResponse.status HttpResponse.titleLookupFailed = 400)
    ∧ (pyFalsy (w.yt_title link) = false →
        pyFalsy (w.get_transcription link) = true →
        generate_blog debug w r =
          (HttpResponse.transcriptFailed,
            [Event.titleCall link, Event.transcriptionCall link]))
    ∧ (∀ t, pyFalsy (w.yt_title link) = false →
        w.get_transcription link = some t →
        pyFalsy (some t) = false →
        pyFalsy (w.generate_blog_from_transcription t) = true →
        generate_blog debug w r =
          (HttpResponse.blogFailed,
            [Event.titleCall link, Event.transcriptionCall link,
             Event.summarizeCall t])) := by
  refine ⟨fun hty => ⟨?_, rfl⟩, fun hty htr => ?_, fun t hty htr htne hbc => ?_⟩
  · simp [generate_blog, hm, ha, hl, hty]
  · simp [generate_blog, hm, ha, hl, hty, htr]
  · simp [generate_blog, hm, ha, hl, hty, htr, htne, hbc]

/-- Witness for C3: a concrete world whose title resolver returns
`None`. -/
theorem pipeline_short_circuit_witness :
    generate_blog false
      ⟨fun _ => none, fun _ => some "t".data, fun _ => some "B".data,
        fun _ _ _ _ => Except.ok ()⟩
      ⟨"POST".data, true, 3, Except.ok "https://example.com/v/abc".data⟩
      = (HttpResponse.titleLookupFailed,
          [Event.titleCall "https://example.com/v/abc".data])
    ∧ HttpResponse.status HttpResponse.titleLookupFailed = 400 :=
  (pipeline_short_circuit false
    ⟨fun _ => none, fun _ => some "t".data, fun _ => some "B".data,
      fun _ _ _ _ => Except.ok ()⟩
    ⟨"POST".data, true, 3, Except.ok "https://example.com/v/abc".data⟩
    "https://example.com/v/abc".data rfl rfl rfl).1 rfl

/-- A world whose acquirer returns a whitespace-only transcript and
whose summarizer fails, exercising the C4 counterexample. -/
def whitespaceWorld : World where
  yt_title := fun _ => some "Sample Video".data
  get_transcription := fun _ => some [' ']
  generate_blog_from_transcription := fun _ => none
  persist := fun _ _ _ _ => Except.ok ()

/-- Counterexample to C4 as stated: when the acquirer returns the
whitespace-only transcript `" "`, the pipeline does NOT report the
transcription failure, and the summarizer IS invoked (`" "` is truthy
in Python, so line 55's `if not transcription` does not fire). -/
theorem whitespace_transcript_not_failure :
    (generate_blog false whitespaceWorld
        ⟨"POST".data, true, 0, Except.ok "L".data⟩).1
      ≠ HttpResponse.transcriptFailed
    ∧ Event.summarizeCall [' ']
        ∈ (generate_blog false whitespaceWorld
            ⟨"POST".data, true, 0, Except.ok "L".data⟩).2 := by
  decide

/-- C4 (amended): when the acquirer returns an absent or empty (falsy)
transcript, the pipeline reports the 500 transcription failure and the
summarizer is never invoked; a whitespace-only transcript is truthy and
is passed on to the summarizer. -/
theorem empty_transcript_short_circuit (debug : Bool) (w : World) (r : Request)
    (link : Text)
    (hm : r.method = "POST".data)
    (ha : r.is_authenticated = true)
    (hl : r.parseLink = Except.ok link)
    (hty : pyFalsy (w.yt_title link) = false)
    (htr : pyFalsy (w.get_transcription link) = true) :
    generate_blog debug w r =
      (HttpResponse.transcriptFailed,
        [Event.titleCall link, Event.transcriptionCall link])
    ∧ HttpResponse.status HttpResponse.transcriptFailed = 500
    ∧ (∀ t, Event.summarizeCall t ∉ (generate_blog debug w r).2) := by
  have hmain : generate_blog debug w r =
      (HttpResponse.transcriptFailed,
        [Event.titleCall link, Event.transcriptionCall link]) := by
    simp [generate_blog, hm, ha, hl, hty, htr]
  refine ⟨hmain, rfl, fun t hmem => ?_⟩
  rw [hmain] at hmem
  simp at hmem

/-- Witness for C4 (amended): a concrete world whose acquirer returns
`None`. -/
theorem empty_transcript_short_circuit_witness :
    generate_blog false
      ⟨fun _ => some "Sample Video".data, fun _ => none, fun _ => some "B".data,
        fun _ _ _ _ => Except.ok ()⟩
      ⟨"POST".data, true, 0, Except.ok "L".data⟩
      = (HttpResponse.transcriptFailed,
          [Event.titleCall "L".data, Event.transcriptionCall "L".data])
    ∧ HttpResponse.status HttpResponse.transcriptFailed = 500
    ∧ (∀ t, Event.summarizeCall t
        ∉ (generate_blog false
            ⟨fun _ => some "Sample Video".data, fun _ => none, fun _ => some "B".data,
              fun _ _ _ _ => Except.ok ()⟩
            ⟨"POST".data, true, 0, Except.ok "L".data⟩).2) :=
  empty_transcript_short_circuit false
    ⟨fun _ => some "Sample Video".data, fun _ => none, fun _ => some "B".data,
      fun _ _ _ _ => Except.ok ()⟩
    ⟨"POST".data, true, 0, Except.ok "L".data⟩ "L".data rfl rfl rfl rfl rfl

/-- C9: when all three stages return truthy results and persistence
succeeds, exactly one article record is created — attributed to the
requesting user, with the resolved title, the requested link and the
generated body — and the same body is returned verbatim as the response
content. -/
theorem success_persists_once (debug : Bool) (w : World) (r : Request)
    (link title t content : Text)
    (hm : r.method = "POST".data)
    (ha : r.is_authenticated = true)
    (hl : r.parseLink = Except.ok link)
    (hti : w.yt_title link = some title) (htine : title ≠ [])
    (htr : w.get_transcription link = some t) (htne : t ≠ [])
    (hbc : w.generate_blog_from_transcription t = some content) (hcne : content ≠ [])
    (hp : w.persist r.userId title link content = Except.ok ()) :
    generate_blog debug w r =
      (HttpResponse.success content,
        [Event.titleCall link, Event.transcriptionCall link, Event.summarizeCall t,
         Event.persistCall r.userId title link content])
    ∧ (generate_blog debug w r).2.filter Event.isPersist
        = [Event.persistCall r.userId title link content] := by
  have hmain : generate_blog debug w r =
      (HttpResponse.success content,
        [Event.titleCall link, Event.transcriptionCall link, Event.summarizeCall t,
         Event.persistCall r.userId title link content]) := by
    simp [generate_blog, hm, ha, hl, hti, htr, hbc, hp, pyFalsy,
      List.isEmpty_eq_false.mpr htine, List.isEmpty_eq_false.mpr htne,
      List.isEmpty_eq_false.mpr hcne]
  refine ⟨hmain, ?_⟩
  rw [hmain]
  simp [Event.isPersist]

/-- Witness for C9: the spec's end-to-end scenario (title
`"Sample Video"`, transcript `"hello world"`, generated body
`"Hello World Summary"`). -/
theorem success_persists_once_witness :
    generate_blog false
      ⟨fun _ => some "Sample Video".data, fun _ => some "hello world".data,
        fun _ => some "Hello World Summary".data, fun _ _ _ _ => Except.ok ()⟩
      ⟨"POST".data, true, 5, Except.ok "https://example.com/v/abc".data⟩
      = (HttpResponse.success "Hello World Summary".data,
          [Event.titleCall "https://example.com/v/abc".data,
           Event.transcriptionCall "https://example.com/v/abc".data,
           Event.summarizeCall "hello world".data,
           Event.persistCall 5 "Sample Video".data "https://example.com/v/abc".data
             "Hello World Summary".data])
    ∧ (generate_blog false
        ⟨fun _ => some "Sample Video".data, fun _ => some "hello world".data,
          fun _ => some "Hello World Summary".data, fun _ _ _ _ => Except.ok ()⟩
        ⟨"POST".data, true, 5, Except.ok "https://example.com/v/abc".data⟩).2.filter
          Event.isPersist
        = [Event.persistCall 5 "Sample Video".data "https://example.com/v/abc".data
            "Hello World Summary".data] :=
  success_persists_once false
    ⟨fun _ => some "Sample Video".data, fun _ => some "hello world".data,
      fun _ => some "Hello World Summary".data, fun _ _ _ _ => Except.ok ()⟩
    ⟨"POST".data, true, 5, Except.ok "https://example.com/v/abc".data⟩
    "https://example.com/v/abc".data "Sample Video".data "hello world".data
    "Hello World Summary".data rfl rfl rfl rfl (by decide) rfl (by decide) rfl
    (by decide) rfl

/-- C10: a summarizer result that is the empty string is treated as a
summarization failure (500, no article persisted); more generally, no
invocation of the orchestrator ever emits a persistence call whose body
is empty. -/
theorem empty_body_never_persisted :
    (∀ (debug : Bool) (w : World) (r : Request) (link title t : Text),
      r.method = "POST".data → r.is_authenticated = true →
      r.parseLink = Except.ok link →
      w.yt_title link = some title → title ≠ [] →
      w.get_transcription link = some t → t ≠ [] →
      w.generate_blog_from_transcription t = some [] →
      generate_blog debug w r =
        (HttpResponse.blogFailed,
          [Event.titleCall link, Event.transcriptionCall link,
           Event.summarizeCall t])
      ∧ HttpResponse.status HttpResponse.blogFailed = 500)
    ∧ (∀ (debug : Bool) (w : World) (r : Request) (u : Nat)
        (title link content : Text),
        Event.persistCall u title link content ∈ (generate_blog debug w r).2 →
        content ≠ []) := by
  constructor
  · intro debug w r link title t hm ha hl hti htine htr htne hbc
    refine ⟨?_, rfl⟩
    simp [generate_blog, hm, ha, hl, hti, htr, hbc, pyFalsy,
      List.isEmpty_eq_false.mpr htine, List.isEmpty_eq_false.mpr htne]
  · intro debug w r u title link content hmem
    by_cases hm : r.method = "POST".data
    · by_cases ha : r.is_authenticated = true
      · cases hpl : r.parseLink with
        | error e => simp [generate_blog, hm, ha, hpl] at hmem
        | ok yl =>
          by_cases hty : pyFalsy (w.yt_title yl) = true
          · simp [generate_blog, hm, ha, hpl, hty] at hmem
          · by_cases htr : pyFalsy (w.get_transcription yl) = true
            · simp [generate_blog, hm, ha, hpl, hty, htr] at hmem
            · by_cases hbc : pyFalsy (w.generate_blog_from_transcription
                  ((w.get_transcription yl).getD [])) = true
              · simp [generate_blog, hm, ha, hpl, hty, htr, hbc] at hmem
              · have hsnd : (generate_blog debug w r).2 =
                    [Event.titleCall yl, Event.transcriptionCall yl,
                     Event.summarizeCall ((w.get_transcription yl).getD []),
                     Event.persistCall r.userId ((w.yt_title yl).getD []) yl
                       ((w.generate_blog_from_transcription
                         ((w.get_transcription yl).getD [])).getD [])] := by
                  cases hp : w.persist r.userId ((w.yt_title yl).getD []) yl
                      ((w.generate_blog_from_transcription
                        ((w.get_transcription yl).getD [])).getD []) with
                  | error e2 => simp [generate_blog, hm, ha, hpl, hty, htr, hbc, hp]
                  | ok a => simp [generate_blog, hm, ha, hpl, hty, htr, hbc, hp]
                rw [hsnd] at hmem
                simp only [List.mem_cons, List.not_mem_nil, or_false] at hmem
                rcases hmem with h | h | h | h
                · simp at h
                · simp at h
                · simp at h
                · have hcontent : content =
                      (w.generate_blog_from_transcription
                        ((w.get_transcription yl).getD [])).getD [] := by
                    injection h with h1 h2 h3 h4
                  rw [hcontent]
                  cases hgen : w.generate_blog_from_transcription
                      ((w.get_transcription yl).getD []) with
                  | none =>
                    rw [hgen] at hbc
                    exact absurd rfl hbc
                  | some s =>
                    rw [hgen] at hbc
                    simp only [Option.getD_some]
                    intro hnil
                    exact hbc (by simp [pyFalsy, hnil])
      · simp [generate_blog, hm, ha] at hmem
    · simp [generate_blog, hm] at hmem

/-- Witness for C10: a concrete world whose summarizer returns the
empty string. -/
theorem empty_body_never_persisted_witness :
    generate_blog false
      ⟨fun _ => some "Sample Video".data, fun _ => some "hello world".data,
        fun _ => some [], fun _ _ _ _ => Except.ok ()⟩
      ⟨"POST".data, true, 0, Except.ok "L".data⟩
      = (HttpResponse.blogFailed,
          [Event.titleCall "L".data, Event.transcriptionCall "L".data,
           Event.summarizeCall "hello world".data])
    ∧ HttpResponse.status HttpResponse.blogFailed = 500 :=
  empty_body_never_persisted.1 false
    ⟨fun _ => some "Sample Video".data, fun _ => some "hello world".data,
      fun _ => some [], fun _ _ _ _ => Except.ok ()⟩
    ⟨"POST".data, true, 0, Except.ok "L".data⟩
    "L".data "Sample Video".data "hello world".data rfl rfl rfl rfl (by decide)
    rfl (by decide) rfl

/-- An acquirer environment whose downloaded file exists with size 0
and whose transcription service returns `"hello"`, exercising the C5
counterexample. -/
def emptyFileEnv : AcquireEnv where
  media_root := "media".data
  importYtDlp := Except.ok ()
  extract_id := fun _ => Except.ok "abc".data
  pathExists := fun _ => true
  listdir := []
  abspath := fun p => p
  getsize := fun _ => Except.ok 0
  getenv := fun k => if k = "ASSEMBLY_KEY".data then some "KEY".data else none
  transcribe := fun _ =>
    Except.ok ⟨Except.ok (some "hello".data), Except.error [], []⟩

/-- Counterexample to C5 as stated: the downloaded audio file is NOT
verified to be non-empty — here the file reports size 0, yet
`get_transcription` proceeds and succeeds (the size is only logged,
views.py lines 139-143). -/
theorem empty_audio_file_still_transcribed :
    emptyFileEnv.getsize
        (emptyFileEnv.abspath
          (os_path_join "media".data ("abc".data ++ ".mp3".data)))
      = Except.ok 0
    ∧ get_transcription emptyFileEnv "L".data = Except.ok (some "hello".data) := by
  constructor
  · rfl
  · rfl

/-- C5 (amended): after downloading, the output audio file is looked up
under the exact expected name `<video id>.mp3` in the media directory,
with a prefix-match scan of the directory listing as fallback (first
entry starting with the id and ending in `.mp3`); if no such file is
found the stage yields `None` (and `get_transcription` then also yields
`None`).  The file's size is read for logging but non-emptiness is not
verified. -/
theorem download_audio_file_lookup (env : AcquireEnv) (link vid : Text)
    (himp : env.importYtDlp = Except.ok ())
    (hid : env.extract_id link = Except.ok vid) :
    (env.pathExists (os_path_join env.media_root (vid ++ ".mp3".data)) = true →
      download_audio env link =
        Except.ok (some (os_path_join env.media_root (vid ++ ".mp3".data))))
    ∧ (∀ fname,
        env.pathExists (os_path_join env.media_root (vid ++ ".mp3".data)) = false →
        env.listdir.find?
            (fun f => vid.isPrefixOf f && ".mp3".data.isSuffixOf f) = some fname →
        download_audio env link =
          Except.ok (some (os_path_join env.media_root fname)))
    ∧ (env.pathExists (os_path_join env.media_root (vid ++ ".mp3".data)) = false →
        env.listdir.find?
            (fun f => vid.isPrefixOf f && ".mp3".data.isSuffixOf f) = none →
        download_audio env link = Except.ok none)
    ∧ (download_audio env link = Except.ok none →
        get_transcription env link = Except.ok none) := by
  refine ⟨fun hex => ?_, fun fname hex hfind => ?_, fun hex hfind => ?_, fun hdl => ?_⟩
  · simp [download_audio, himp, hid, hex]
  · simp [download_audio, himp, hid, hex, hfind]
  · simp [download_audio, himp, hid, hex, hfind]
  · simp [get_transcription, hdl, pyFalsy]

/-- Witness for C5 (amended): a concrete environment where the exact
expected name is present. -/
theorem download_audio_file_lookup_witness :
    emptyFileEnv.pathExists
        (os_path_join emptyFileEnv.media_root ("abc".data ++ ".mp3".data)) = true
    ∧ download_audio emptyFileEnv "L".data =
        Except.ok (some (os_path_join emptyFileEnv.media_root ("abc".data ++ ".mp3".data))) :=
  ⟨rfl,
    (download_audio_file_lookup emptyFileEnv "L".data "abc".data rfl rfl).1 rfl⟩

/-- A world whose persistence layer raises, exercising the catch-all
branch for the C8 witness. -/
def failingPersistWorld : World where
  yt_title := fun _ => some "T".data
  get_transcription := fun _ => some "t".data
  generate_blog_from_transcription := fun _ => some "B".data
  persist := fun _ _ _ _ => Except.error "db down".data

/-- C8: no exception raised inside the three pipeline stages propagates
uncaught: `yt_title`, `download_audio`, `get_transcription` and
`generate_blog_from_transcription` return an `ok` value for every
oracle environment (every external-call exception is caught at the
stage boundary and converted to `None`), and the only remaining
exception source — persistence — is caught by the top-level handler,
which returns the full diagnostic detail exactly when DEBUG is on and a
generic error otherwise. -/
theorem no_uncaught_stage_exceptions :
    (∀ (env : TitleEnv) (link : Text), ∃ r, yt_title env link = Except.ok r)
    ∧ (∀ (env : AcquireEnv) (link : Text), ∃ r, download_audio env link = Except.ok r)
    ∧ (∀ (env : AcquireEnv) (link : Text), ∃ r, get_transcription env link = Except.ok r)
    ∧ (∀ (env : SummarizerEnv) (t : Text),
        ∃ r, generate_blog_from_transcription env t = Except.ok r)
    ∧ (∀ (w : World) (r : Request) (e link title t content : Text),
        r.method = "POST".data → r.is_authenticated = true →
        r.parseLink = Except.ok link →
        w.yt_title link = some title → title ≠ [] →
        w.get_transcription link = some t → t ≠ [] →
        w.generate_blog_from_transcription t = some content → content ≠ [] →
        w.persist r.userId title link content = Except.error e →
        (generate_blog true w r).1 = HttpResponse.internalErrorDebug e
        ∧ (generate_blog false w r).1 = HttpResponse.internalError) := by
  refine ⟨fun env link => ?_, fun env link => ?_, fun env link => ?_,
    fun env t => ?_, fun w r e link title t content hm ha hl hti htine htr htne
      hbc hcne hp => ?_⟩
  · unfold yt_title
    cases env.importYtDlp with
    | error _ => exact ⟨none, rfl⟩
    | ok _ =>
      cases env.extract_info link with
      | error _ => exact ⟨none, rfl⟩
      | ok title => exact ⟨title, rfl⟩
  · unfold download_audio
    cases env.importYtDlp with
    | error _ => exact ⟨none, rfl⟩
    | ok _ =>
      cases env.extract_id link with
      | error _ => exact ⟨none, rfl⟩
      | ok vid =>
        simp only
        by_cases hex :
            env.pathExists (os_path_join env.media_root (vid ++ ".mp3".data)) = true
        · exact ⟨some (os_path_join env.media_root (vid ++ ".mp3".data)),
            by simp [hex]⟩
        · cases hfind : env.listdir.find?
              (fun f => vid.isPrefixOf f && ".mp3".data.isSuffixOf f) with
          | none => exact ⟨none, by simp [hex, hfind]⟩
          | some fname => exact ⟨some (os_path_join env.media_root fname),
              by simp [hex, hfind]⟩
  · unfold get_transcription
    have hdl : ∃ r, download_audio env link = Except.ok r := by
      unfold download_audio
      cases env.importYtDlp with
      | error _ => exact ⟨none, rfl⟩
      | ok _ =>
        cases env.extract_id link with
        | error _ => exact ⟨none, rfl⟩
        | ok vid =>
          simp only
          by_cases hex :
              env.pathExists (os_path_join env.media_root (vid ++ ".mp3".data)) = true
          · exact ⟨some (os_path_join env.media_root (vid ++ ".mp3".data)),
              by simp [hex]⟩
          · cases hfind : env.listdir.find?
                (fun f => vid.isPrefixOf f && ".mp3".data.isSuffixOf f) with
            | none => exact ⟨none, by simp [hex, hfind]⟩
            | some fname => exact ⟨some (os_path_join env.media_root fname),
                by simp [hex, hfind]⟩
    obtain ⟨dl, hdl⟩ := hdl
    rw [hdl]
    by_cases hfalsy : pyFalsy dl = true
    · exact ⟨none, by simp [hfalsy]⟩
    · simp only [hfalsy, if_neg, Bool.not_eq_true]
      by_cases hex : env.pathExists (env.abspath (dl.getD [])) = true
      · simp only [hex]
        by_cases hkey : pyFalsy (pyOr (env.getenv "ASSEMBLY_KEY".data)
            (env.getenv "ASSEMBLYAI_API_KEY".data)) = true
        · exact ⟨none, by simp [hkey]⟩
        · simp only [hkey]
          cases htrs : env.transcribe (env.abspath (dl.getD [])) with
          | error _ => exact ⟨none, by simp [hfalsy, hkey, htrs]⟩
          | ok transcript =>
            exact ⟨(match transcript.text with
              | Except.ok t => t
              | Except.error _ =>
                match transcript.get with
                | Except.ok t => t
                | Except.error _ => some transcript.str),
              by simp [hfalsy, hkey, htrs]⟩
      · exact ⟨none, by simp [hfalsy, hex]⟩
  · unfold generate_blog_from_transcription
    cases env.primary t with
    | ok c => exact ⟨some c, rfl⟩
    | error _ =>
      cases env.pipelineInit with
      | error _ => exact ⟨none, rfl⟩
      | ok _ =>
        cases collectSummaries env (chunksExpr 1000 t) with
        | error _ => exact ⟨none, rfl⟩
        | ok summaries => exact ⟨_, rfl⟩
  · constructor
    · simp [generate_blog, hm, ha, hl, hti, htr, hbc, hp, pyFalsy,
        List.isEmpty_eq_false.mpr htine, List.isEmpty_eq_false.mpr htne,
        List.isEmpty_eq_false.mpr hcne]
    · simp [generate_blog, hm, ha, hl, hti, htr, hbc, hp, pyFalsy,
        List.isEmpty_eq_false.mpr htine, List.isEmpty_eq_false.mpr htne,
        List.isEmpty_eq_false.mpr hcne]

/-- Witness for C8: the catch-all branch at a concrete world whose
persistence layer raises, under DEBUG on and off. -/
theorem no_uncaught_stage_exceptions_witness :
    (generate_blog true failingPersistWorld
        ⟨"POST".data, true, 7, Except.ok "L".data⟩).1
      = HttpResponse.internalErrorDebug "db down".data
    ∧ (generate_blog false failingPersistWorld
        ⟨"POST".data, true, 7, Except.ok "L".data⟩).1
      = HttpResponse.internalError :=
  no_uncaught_stage_exceptions.2.2.2.2 failingPersistWorld
    ⟨"POST".data, true, 7, Except.ok "L".data⟩ "db down".data "L".data "T".data
    "t".data "B".data rfl rfl rfl rfl (by decide) rfl (by decide) rfl (by decide) rfl

end BlogGen
